import Mathlib

/-!
Verification of the invoice-extraction core (extraction client, normalizer,
service composition) against its specification.

The Python source is embedded shallowly:

* JSON values (the payloads moved between the backend and the normalizer)
  are the inductive `Json`; Python `None` and JSON `null` are both `Json.null`,
  matching what `json.loads` / `dict.get` produce.
* Python dictionary, indexing, membership and attribute-access semantics,
  including the exceptions they raise (`TypeError`, `KeyError`, `IndexError`,
  `AttributeError`), are modelled by the `py*` helpers returning
  `Except PyErr _`.
* Each distinct `raise` site of the source gets its own `PyErr` constructor,
  so the error actually raised on a path is visible in the model.
* Network I/O and the wall clock are exogenous: the extraction client is a
  function of the submission response and of a finite trace of
  (clock-reading, poll-response) pairs, and it additionally returns the
  number of network requests it issued.
-/

/-- A JSON value as decoded by Python's `json` module.  `null` doubles as
Python `None` (which is what `json.loads` decodes `null` to, and what
`dict.get` returns for an absent key).  Numbers are modelled as rationals:
no claim computes on numbers, they are only passed through. -/
inductive Json where
  | null : Json
  | bool (b : Bool) : Json
  | num (q : ℚ) : Json
  | str (s : String) : Json
  | arr (xs : List Json) : Json
  | obj (kvs : List (String × Json)) : Json

/-- Python-style exceptions raised by the embedded code.  Each constructor
corresponds to one exception class / raise site of the source. -/
inductive PyErr where
  /-- Python TypeError (e.g. `"k" in 5`, `5["k"]`, `5[0]`). -/
  | typeError : PyErr
  /-- Python AttributeError (calling `.get` on a non-dict). -/
  | attributeError : PyErr
  /-- Python KeyError from `d[k]` with `k` absent (also `headers[k]`). -/
  | keyError (k : String) : PyErr
  /-- Python IndexError from `xs[0]` on an empty list. -/
  | indexError : PyErr
  /-- The ValueError("Missing DOCINT_ENDPOINT or DOCINT_KEY environment variables.")` -/
  | configError : PyErr
  /-- The ValueError("PDF bytes are empty.") raised by the service. -/
  | emptyInput : PyErr
  /-- The RuntimeError carrying "Azure DI error: [status]. Expected 202. Body: [body]". -/
  | backendRejected (status : Nat) (body : String) : PyErr
  /-- The RuntimeError("Azure DI response missing Operation-Location header."). -/
  | missingOpLocation : PyErr
  /-- The RuntimeError("Azure DI failed to process the document."). -/
  | backendFailed : PyErr
  /-- The TimeoutError raised when polling exceeds MAX_WAIT_SECONDS. -/
  | pollTimeout : PyErr
deriving DecidableEq

/-- Python truthiness (`bool(x)`) of a JSON value: `None`, `False`, `0`,
`""`, `[]` and `{}` are falsy, everything else truthy. -/
def truthy : Json → Bool
  | .null => false
  | .bool b => b
  | .num q => !(q == 0)
  | .str s => !(s == "")
  | .arr xs => !xs.isEmpty
  | .obj kvs => !kvs.isEmpty

/-- Lookup in a Python dict modelled as an association list (keys unique, as
in any dict produced by `json.loads`). -/
def dictGet (kvs : List (String × Json)) (k : String) : Option Json :=
  (kvs.find? (fun p => p.1 == k)).map (fun p => p.2)

/-- Python `==` between a JSON value and a string literal: true exactly for
the equal string (numbers, lists, `None`, … compare unequal). -/
def isStrEq (j : Json) (k : String) : Bool :=
  match j with
  | .str s => s == k
  | _ => false

/-- Substring test, the semantics of Python's `k in s` for strings. -/
def strContainsSub (s pat : String) : Bool :=
  if pat == "" then true else (s.splitOn pat).length > 1

/-- Python `k in x`: key membership for dicts, substring for strings,
element equality for lists; `TypeError` for numbers/booleans/`None`. -/
def pyContains (j : Json) (k : String) : Except PyErr Bool :=
  match j with
  | .obj kvs => .ok (kvs.any (fun p => p.1 == k))
  | .str s => .ok (strContainsSub s k)
  | .arr xs => .ok (xs.any (fun x => isStrEq x k))
  | _ => .error .typeError

/-- Python `x[k]` with a string key: dict lookup (raising `KeyError` when
absent), `TypeError` on every non-dict. -/
def pyGetItem (j : Json) (k : String) : Except PyErr Json :=
  match j with
  | .obj kvs =>
    match dictGet kvs k with
    | some v => .ok v
    | none => .error (.keyError k)
  | _ => .error .typeError

/-- Python `x[0]`: head of a list (`IndexError` when empty), first character
of a string, `KeyError` on a dict (modelling the integer key as `"0"`),
`TypeError` otherwise. -/
def pyIndexZero (j : Json) : Except PyErr Json :=
  match j with
  | .arr [] => .error .indexError
  | .arr (x :: _) => .ok x
  | .str s =>
    match s.toList with
    | [] => .error .indexError
    | c :: _ => .ok (.str (String.singleton c))
  | .obj _ => .error (.keyError "0")
  | _ => .error .typeError

/-- Python `x.get(k)`: total on dicts (absent key gives `None`),
`AttributeError` on everything else. -/
def pyDotGet (j : Json) (k : String) : Except PyErr Json :=
  match j with
  | .obj kvs => .ok ((dictGet kvs k).getD .null)
  | _ => .error .attributeError

/-- One `if "k" in field: …` branch of `get_value`: run the membership test,
on a hit index the field and continue with `onHit`, on a miss fall through
to `onMiss`. -/
def tryBranch (field : Json) (k : String) (onHit : Json → Except PyErr Json)
    (onMiss : Unit → Except PyErr Json) : Except PyErr Json :=
  match pyContains field k with
  | .error e => .error e
  | .ok true =>
    match pyGetItem field k with
    | .error e => .error e
    | .ok v => onHit v
  | .ok false => onMiss ()

/-- Function `get_value` from `src/extraction/normalize_output.py`: unwrap the
backend's typed-value representation.  The branch order is the source's:
falsy field ↦ `None`; then `valueString`, `valueNumber`, `valueDate`,
`valueCurrency` (returning `currency.get("amount")`), `valueArray`,
`valueObject`; no known slot ↦ `None`. -/
def get_value (field : Json) : Except PyErr Json :=
  if truthy field = false then .ok .null else
  tryBranch field "valueString" .ok fun _ =>
  tryBranch field "valueNumber" .ok fun _ =>
  tryBranch field "valueDate" .ok fun _ =>
  tryBranch field "valueCurrency" (fun currency => pyDotGet currency "amount") fun _ =>
  tryBranch field "valueArray" .ok fun _ =>
  tryBranch field "valueObject" .ok fun _ =>
  .ok .null

/-- The loop body of `normalize_invoice` over the entries of `items_raw`:
for each entry, `obj = get_value(item)`; `if not obj: continue`; otherwise
append the line-item dict built from `get_value(obj.get(…))` for
`Description`, `Quantity`, `UnitPrice`, `Amount` (in the source's order). -/
def normalizeItems : List Json → Except PyErr (List Json)
  | [] => .ok []
  | item :: rest => do
    let obj ← get_value item
    if truthy obj = false then
      normalizeItems rest
    else do
      let dRaw ← pyDotGet obj "Description"
      let d ← get_value dRaw
      let qRaw ← pyDotGet obj "Quantity"
      let q ← get_value qRaw
      let uRaw ← pyDotGet obj "UnitPrice"
      let u ← get_value uRaw
      let aRaw ← pyDotGet obj "Amount"
      let a ← get_value aRaw
      let tail ← normalizeItems rest
      pure (Json.obj [("description", d), ("quantity", q), ("unit_price", u), ("amount", a)] :: tail)

/-- Function `normalize_invoice` from `src/extraction/normalize_output.py`.  Statement
order follows the source: `raw_json["analyzeResult"]["documents"][0]`,
`doc["fields"]`, the eight scalar fields via `fields.get` + `get_value`,
then `items_raw = get_value(fields.get("Items")) or []`, the item loop, and
the final dict including `doc.get("confidence")`. -/
def normalize_invoice (raw_json : Json) : Except PyErr Json := do
  let ar ← pyGetItem raw_json "analyzeResult"
  let docs ← pyGetItem ar "documents"
  let doc ← pyIndexZero docs
  let fields ← pyGetItem doc "fields"
  let invoice_id ← (← pyDotGet fields "InvoiceId") |> get_value
  let vendor_name ← (← pyDotGet fields "VendorName") |> get_value
  let vendor_address ← (← pyDotGet fields "VendorAddress") |> get_value
  let customer_name ← (← pyDotGet fields "CustomerName") |> get_value
  let invoice_date ← (← pyDotGet fields "InvoiceDate") |> get_value
  let due_date ← (← pyDotGet fields "DueDate") |> get_value
  let total_amount ← (← pyDotGet fields "InvoiceTotal") |> get_value
  let total_tax ← (← pyDotGet fields "TotalTax") |> get_value
  let itemsVal ← (← pyDotGet fields "Items") |> get_value
  let items_raw := if truthy itemsVal then itemsVal else .arr []
  let itemsList ←
    match items_raw with
    | .arr xs => Except.ok xs
    | .str s => Except.ok (s.toList.map (fun c => Json.str (String.singleton c)))
    | .obj kvs => Except.ok (kvs.map (fun p => Json.str p.1))
    | _ => Except.error PyErr.typeError
  let items ← normalizeItems itemsList
  let confidence ← pyDotGet doc "confidence"
  pure (Json.obj
    [("invoice_id", invoice_id), ("invoice_date", invoice_date), ("due_date", due_date),
     ("vendor_name", vendor_name), ("vendor_address", vendor_address),
     ("customer_name", customer_name), ("total_amount", total_amount),
     ("total_tax", total_tax), ("items", .arr items), ("confidence", confidence)])

/-! ## Extraction client (`src/extraction/extract_invoice.py`)

The client's interactions with the outside world are made explicit inputs:
the environment variables, the response to the single `requests.post`, and a
finite trace of poll iterations, each carrying the `time.time()` reading
taken at the top of that iteration and the body of the `requests.get`
response the iteration would receive.  `time.sleep` only advances the wall
clock, which the trace already supplies, so it needs no further modelling.
The model also counts the network requests actually issued. -/

/-- Constant `MAX_WAIT_SECONDS = 60` from the source. -/
def MAX_WAIT_SECONDS : ℚ := 60

/-- Result of `poll_resp.json()`: either the body failed to parse
(`json.JSONDecodeError`) or it parsed to a JSON value. -/
inductive PollBody where
  | invalidJson : PollBody
  | json (j : Json) : PollBody

/-- Outcome of a (possibly truncated) run of the client: a returned raw
result, a raised exception, or `pending` when the supplied trace ended while
the `while True:` loop would have kept polling. -/
inductive RunOutcome where
  | ok (result : Json) : RunOutcome
  | err (e : PyErr) : RunOutcome
  | pending : RunOutcome

/-- The `while True:` polling loop of `extract_invoice`.  `start` is
`start_time`; each trace entry is (the `time.time()` reading at the top of
the iteration, the poll response body).  Returns the outcome together with
the number of poll requests issued.  Per the source: the timeout check
`elapsed > MAX_WAIT_SECONDS` happens before the request of that iteration;
an unparseable body sleeps and continues; `status == "succeeded"` returns
the parsed body; `status == "failed"` raises; any other status continues.
A non-dict parsed body makes `result_json.get("status")` raise
`AttributeError`, which the model keeps. -/
def pollLoop (maxWait : ℚ) (start : ℚ) : List (ℚ × PollBody) → RunOutcome × Nat
  | [] => (.pending, 0)
  | (now, body) :: rest =>
    if now - start > maxWait then (.err .pollTimeout, 0)
    else
      match body with
      | .invalidJson =>
        let r := pollLoop maxWait start rest
        (r.1, r.2 + 1)
      | .json j =>
        match pyDotGet j "status" with
        | .error e => (.err e, 1)
        | .ok status =>
          if isStrEq status "succeeded" then (.ok j, 1)
          else if isStrEq status "failed" then (.err .backendFailed, 1)
          else
            let r := pollLoop maxWait start rest
            (r.1, r.2 + 1)

/-- The environment configuration read by `extract_invoice`:
`os.getenv("DOCINT_ENDPOINT")` and `os.getenv("DOCINT_KEY")`, each `None`
when unset. -/
structure Config where
  endpoint : Option String
  key : Option String

/-- Truthiness of an `os.getenv` result: `None` and `""` are falsy. -/
def optTruthy : Option String → Bool
  | none => false
  | some s => !(s == "")

/-- The response to the submission `requests.post`: status code, headers
and text body (the attributes the source reads). -/
structure PostResponse where
  status_code : Nat
  headers : List (String × String)
  text : String

/-- Header lookup; `response.headers[k]` raises `KeyError` when absent. -/
def headerGet (hs : List (String × String)) (k : String) : Option String :=
  (hs.find? (fun p => p.1 == k)).map (fun p => p.2)

/-- Function `extract_invoice` from `src/extraction/extract_invoice.py`, with the
world passed in: the config read from the environment, the submission
response, `start_time`, and the poll trace.  Returns the outcome and the
total number of network requests issued (the POST plus the polls).
Faithful branch order: missing config raises `ValueError`; a non-202 status
raises the diagnostic `RuntimeError`; then
`response.headers["Operation-Location"]` raises `KeyError` when the header
is absent; `if not operation_url` raises the missing-header `RuntimeError`
only when the header is present but empty; then the poll loop runs. -/
def extract_invoice (cfg : Config) (post : PostResponse) (start : ℚ)
    (trace : List (ℚ × PollBody)) : RunOutcome × Nat :=
  if optTruthy cfg.endpoint = false || optTruthy cfg.key = false then
    (.err .configError, 0)
  else if post.status_code ≠ 202 then
    (.err (.backendRejected post.status_code post.text), 1)
  else
    match headerGet post.headers "Operation-Location" with
    | none => (.err (.keyError "Operation-Location"), 1)
    | some u =>
      if u == "" then (.err .missingOpLocation, 1)
      else
        let r := pollLoop MAX_WAIT_SECONDS start trace
        (r.1, r.2 + 1)

/-- Function `process_invoice_bytes` from `src/extraction/service.py`: raise
`ValueError` on empty bytes, otherwise `extract_invoice` then
`normalize_invoice`, with no error translation.  Bytes are modelled as the
list of byte values; only emptiness is ever inspected. -/
def process_invoice_bytes (pdf_bytes : List Nat) (cfg : Config)
    (post : PostResponse) (start : ℚ) (trace : List (ℚ × PollBody)) :
    RunOutcome × Nat :=
  if pdf_bytes.isEmpty then (.err .emptyInput, 0)
  else
    match extract_invoice cfg post start trace with
    | (.ok raw, n) =>
      (match normalize_invoice raw with
       | .ok r => RunOutcome.ok r
       | .error e => RunOutcome.err e, n)
    | (o, n) => (o, n)


/-! ## Spec-side vocabulary for stating the claims -/

/-- The value slot of a typed-value record, read off the record itself
(`none` when the record is not an object or lacks the key). -/
def slotVal (j : Json) (k : String) : Option Json :=
  match j with
  | .obj kvs => dictGet kvs k
  | _ => none

/-- The six value-slot keys of the backend's typed-value representation, in
the precedence order `get_value` inspects them. -/
def slotKeys : List String :=
  ["valueString", "valueNumber", "valueDate", "valueCurrency", "valueArray", "valueObject"]

/-- A typed value per the spec's data model: absent/`null`, or a record
populating at most one of the six mutually exclusive value slots, a
populated currency slot holding a mapping (the wire shape
`{currencySymbol, amount, currencyCode}`). -/
def isTypedValue : Json → Bool
  | .null => true
  | .obj kvs =>
    (match dictGet kvs "valueString", dictGet kvs "valueNumber", dictGet kvs "valueDate",
           dictGet kvs "valueCurrency", dictGet kvs "valueArray", dictGet kvs "valueObject" with
     | none, none, none, none, none, none => true
     | some _, none, none, none, none, none => true
     | none, some _, none, none, none, none => true
     | none, none, some _, none, none, none => true
     | none, none, none, some (.obj _), none, none => true
     | none, none, none, none, some _, none => true
     | none, none, none, none, none, some _ => true
     | _, _, _, _, _, _ => false)
  | _ => false

/-- The errors the normalizer can raise are exactly the structural lookup
exceptions (`TypeError`, `AttributeError`, `KeyError`, `IndexError`) — the
kinds the spec groups as `MalformedResult`. -/
def isStructuralErr : PyErr → Bool
  | .typeError => true
  | .attributeError => true
  | .keyError _ => true
  | .indexError => true
  | _ => false

/-- The document envelope of a raw result, when present: the first analyzed
document's key/value list together with its `fields` mapping.  `none` mirrors
exactly the shapes on which `normalize_invoice`'s accessor prefix (or the
first `fields.get`) cannot succeed. -/
def envelopeFields (raw : Json) :
    Option (List (String × Json) × List (String × Json)) :=
  match raw with
  | .obj kvs =>
    match dictGet kvs "analyzeResult" with
    | some (.obj akvs) =>
      match dictGet akvs "documents" with
      | some (.arr (Json.obj dkvs :: _)) =>
        match dictGet dkvs "fields" with
        | some (.obj fkvs) => some (dkvs, fkvs)
        | _ => none
      | _ => none
    | _ => none
  | _ => none

/-! ## Basic lemmas about the Python-semantics helpers -/

theorem hasKey_eq_isSome (kvs : List (String × Json)) (k : String) :
    (kvs.any (fun p => p.1 == k)) = (dictGet kvs k).isSome := by
  induction kvs with
  | nil => rfl
  | cons p rest ih =>
    by_cases h : p.1 == k
    · simp [dictGet, List.find?_cons_of_pos, h]
    · simpa [dictGet, List.find?_cons_of_neg, h] using ih

theorem truthy_obj_of_dictGet {kvs : List (String × Json)} {k : String} {v : Json}
    (h : dictGet kvs k = some v) : truthy (.obj kvs) = true := by
  cases kvs with
  | nil => simp [dictGet] at h
  | cons p rest => rfl

theorem tryBranch_obj_hit {kvs : List (String × Json)} {k : String} {v : Json}
    (onHit : Json → Except PyErr Json) (onMiss : Unit → Except PyErr Json)
    (h : dictGet kvs k = some v) :
    tryBranch (.obj kvs) k onHit onMiss = onHit v := by
  have hk : (kvs.any (fun p => p.1 == k)) = true := by
    rw [hasKey_eq_isSome, h]; rfl
  simp [tryBranch, pyContains, hk, pyGetItem, h]

theorem tryBranch_obj_miss {kvs : List (String × Json)} {k : String}
    (onHit : Json → Except PyErr Json) (onMiss : Unit → Except PyErr Json)
    (h : dictGet kvs k = none) :
    tryBranch (.obj kvs) k onHit onMiss = onMiss () := by
  have hk : (kvs.any (fun p => p.1 == k)) = false := by
    rw [hasKey_eq_isSome, h]; rfl
  simp [tryBranch, pyContains, hk]

theorem get_value_obj_string {kvs : List (String × Json)} {v : Json}
    (h : dictGet kvs "valueString" = some v) :
    get_value (.obj kvs) = .ok v := by
  simp [get_value, truthy_obj_of_dictGet h, tryBranch_obj_hit _ _ h]

theorem get_value_obj_number {kvs : List (String × Json)} {v : Json}
    (h1 : dictGet kvs "valueString" = none)
    (h : dictGet kvs "valueNumber" = some v) :
    get_value (.obj kvs) = .ok v := by
  simp [get_value, truthy_obj_of_dictGet h, tryBranch_obj_miss _ _ h1,
    tryBranch_obj_hit _ _ h]

theorem get_value_obj_date {kvs : List (String × Json)} {v : Json}
    (h1 : dictGet kvs "valueString" = none)
    (h2 : dictGet kvs "valueNumber" = none)
    (h : dictGet kvs "valueDate" = some v) :
    get_value (.obj kvs) = .ok v := by
  simp [get_value, truthy_obj_of_dictGet h, tryBranch_obj_miss _ _ h1,
    tryBranch_obj_miss _ _ h2, tryBranch_obj_hit _ _ h]

theorem get_value_obj_currency {kvs : List (String × Json)} {c : Json}
    (h1 : dictGet kvs "valueString" = none)
    (h2 : dictGet kvs "valueNumber" = none)
    (h3 : dictGet kvs "valueDate" = none)
    (h : dictGet kvs "valueCurrency" = some c) :
    get_value (.obj kvs) = pyDotGet c "amount" := by
  simp [get_value, truthy_obj_of_dictGet h, tryBranch_obj_miss _ _ h1,
    tryBranch_obj_miss _ _ h2, tryBranch_obj_miss _ _ h3, tryBranch_obj_hit _ _ h]

theorem get_value_obj_array {kvs : List (String × Json)} {v : Json}
    (h1 : dictGet kvs "valueString" = none)
    (h2 : dictGet kvs "valueNumber" = none)
    (h3 : dictGet kvs "valueDate" = none)
    (h4 : dictGet kvs "valueCurrency" = none)
    (h : dictGet kvs "valueArray" = some v) :
    get_value (.obj kvs) = .ok v := by
  simp [get_value, truthy_obj_of_dictGet h, tryBranch_obj_miss _ _ h1,
    tryBranch_obj_miss _ _ h2, tryBranch_obj_miss _ _ h3,
    tryBranch_obj_miss _ _ h4, tryBranch_obj_hit _ _ h]

theorem get_value_obj_object {kvs : List (String × Json)} {v : Json}
    (h1 : dictGet kvs "valueString" = none)
    (h2 : dictGet kvs "valueNumber" = none)
    (h3 : dictGet kvs "valueDate" = none)
    (h4 : dictGet kvs "valueCurrency" = none)
    (h5 : dictGet kvs "valueArray" = none)
    (h : dictGet kvs "valueObject" = some v) :
    get_value (.obj kvs) = .ok v := by
  simp [get_value, truthy_obj_of_dictGet h, tryBranch_obj_miss _ _ h1,
    tryBranch_obj_miss _ _ h2, tryBranch_obj_miss _ _ h3,
    tryBranch_obj_miss _ _ h4, tryBranch_obj_miss _ _ h5, tryBranch_obj_hit _ _ h]

theorem get_value_obj_noSlots {kvs : List (String × Json)}
    (h1 : dictGet kvs "valueString" = none)
    (h2 : dictGet kvs "valueNumber" = none)
    (h3 : dictGet kvs "valueDate" = none)
    (h4 : dictGet kvs "valueCurrency" = none)
    (h5 : dictGet kvs "valueArray" = none)
    (h6 : dictGet kvs "valueObject" = none) :
    get_value (.obj kvs) = .ok .null := by
  cases hkv : kvs with
  | nil => rfl
  | cons p rest =>
    subst hkv
    simp [get_value, truthy, tryBranch_obj_miss _ _ h1, tryBranch_obj_miss _ _ h2,
      tryBranch_obj_miss _ _ h3, tryBranch_obj_miss _ _ h4,
      tryBranch_obj_miss _ _ h5, tryBranch_obj_miss _ _ h6]

/-- The unwrapping result as the spec describes it, shape by shape: a typed
value populating the string/number/date slot passes that scalar through, a
currency slot reduces to its `amount` sub-field (absent amount giving null),
an array or object slot passes its content through, and a typed value
populating no slot — or absent/null — unwraps to null.  Defined from the
spec's words, to be compared with the source's `get_value`. -/
def unwrapValueSpec (j : Json) : Json :=
  match slotVal j "valueString", slotVal j "valueNumber", slotVal j "valueDate",
        slotVal j "valueCurrency", slotVal j "valueArray", slotVal j "valueObject" with
  | some v, none, none, none, none, none => v
  | none, some v, none, none, none, none => v
  | none, none, some v, none, none, none => v
  | none, none, none, some (.obj ckvs), none, none => (dictGet ckvs "amount").getD .null
  | none, none, none, none, some v, none => v
  | none, none, none, none, none, some v => v
  | _, _, _, _, _, _ => .null

theorem getValue_eq_spec_of_typed (j : Json) (h : isTypedValue j = true) :
    get_value j = .ok (unwrapValueSpec j) := by
  cases j with
  | null => rfl
  | bool b => exact absurd h (by simp [isTypedValue])
  | num q => exact absurd h (by simp [isTypedValue])
  | str s => exact absurd h (by simp [isTypedValue])
  | arr xs => exact absurd h (by simp [isTypedValue])
  | obj kvs =>
    rcases h1 : dictGet kvs "valueString" with _ | v1 <;>
      rcases h2 : dictGet kvs "valueNumber" with _ | v2 <;>
      rcases h3 : dictGet kvs "valueDate" with _ | v3 <;>
      rcases h4 : dictGet kvs "valueCurrency" with _ | v4 <;>
      rcases h5 : dictGet kvs "valueArray" with _ | v5 <;>
      rcases h6 : dictGet kvs "valueObject" with _ | v6
    all_goals try cases v4
    all_goals simp only [isTypedValue, h1, h2, h3, h4, h5, h6] at h
    all_goals simp only [unwrapValueSpec, slotVal, h1, h2, h3, h4, h5, h6]
    all_goals first
      | exact Bool.noConfusion h
      | exact get_value_obj_noSlots h1 h2 h3 h4 h5 h6
      | exact get_value_obj_string h1
      | exact get_value_obj_number h1 h2
      | exact get_value_obj_date h1 h2 h3
      | exact (get_value_obj_currency h1 h2 h3 h4).trans rfl
      | exact get_value_obj_array h1 h2 h3 h4 h5
      | exact get_value_obj_object h1 h2 h3 h4 h5 h6

/-! ## Poll-loop lemmas -/

/-- A poll iteration on which the loop keeps going: its clock reading is
within the timeout budget and its response is either unparseable or parses
to a value whose `status` is readable and neither `succeeded` nor
`failed`. -/
def stepContinues (maxWait start : ℚ) (e : ℚ × PollBody) : Bool :=
  decide (e.1 - start ≤ maxWait) &&
  (match e.2 with
   | .invalidJson => true
   | .json j =>
     match pyDotGet j "status" with
     | .ok st => !(isStrEq st "succeeded") && !(isStrEq st "failed")
     | .error _ => false)

theorem pollLoop_timeout_now {w start now : ℚ} {b : PollBody}
    {rest : List (ℚ × PollBody)} (h : now - start > w) :
    pollLoop w start ((now, b) :: rest) = (.err .pollTimeout, 0) := by
  simp [pollLoop, h]

theorem pollLoop_invalid {w start now : ℚ} {rest : List (ℚ × PollBody)}
    (h : ¬ now - start > w) :
    pollLoop w start ((now, .invalidJson) :: rest) =
      ((pollLoop w start rest).1, (pollLoop w start rest).2 + 1) := by
  simp [pollLoop, h]

theorem pollLoop_succeeded {w start now : ℚ} {j st : Json}
    {rest : List (ℚ × PollBody)} (h : ¬ now - start > w)
    (hst : pyDotGet j "status" = .ok st) (hs : isStrEq st "succeeded" = true) :
    pollLoop w start ((now, .json j) :: rest) = (.ok j, 1) := by
  simp [pollLoop, h, hst, hs]

theorem pollLoop_failed {w start now : ℚ} {j st : Json}
    {rest : List (ℚ × PollBody)} (h : ¬ now - start > w)
    (hst : pyDotGet j "status" = .ok st) (hs : isStrEq st "succeeded" = false)
    (hf : isStrEq st "failed" = true) :
    pollLoop w start ((now, .json j) :: rest) = (.err .backendFailed, 1) := by
  simp [pollLoop, h, hst, hs, hf]

theorem pollLoop_inProgress {w start now : ℚ} {j st : Json}
    {rest : List (ℚ × PollBody)} (h : ¬ now - start > w)
    (hst : pyDotGet j "status" = .ok st) (hs : isStrEq st "succeeded" = false)
    (hf : isStrEq st "failed" = false) :
    pollLoop w start ((now, .json j) :: rest) =
      ((pollLoop w start rest).1, (pollLoop w start rest).2 + 1) := by
  simp [pollLoop, h, hst, hs, hf]

/-- After any run of in-progress/unparseable iterations, a clock reading
past the budget makes the loop raise the timeout, having issued exactly one
request per earlier iteration and none afterwards. -/
theorem pollLoop_timeout_after_run (w start : ℚ) (pre : List (ℚ × PollBody))
    (now : ℚ) (b : PollBody) (rest : List (ℚ × PollBody))
    (hpre : ∀ e ∈ pre, stepContinues w start e = true)
    (ht : now - start > w) :
    pollLoop w start (pre ++ (now, b) :: rest) = (.err .pollTimeout, pre.length) := by
  induction pre with
  | nil => simpa using pollLoop_timeout_now ht
  | cons e pre ih =>
    have he := hpre e (List.mem_cons_self e pre)
    have hrec := ih (fun x hx => hpre x (List.mem_cons_of_mem e hx))
    obtain ⟨now', body⟩ := e
    cases body with
    | invalidJson =>
      simp only [stepContinues, Bool.and_eq_true, decide_eq_true_eq] at he
      have hle : ¬ now' - start > w := not_lt.mpr he.1
      rw [List.cons_append, pollLoop_invalid hle, hrec]
      simp
    | json j =>
      simp only [stepContinues, Bool.and_eq_true, decide_eq_true_eq] at he
      obtain ⟨hin, hbody⟩ := he
      have hle : ¬ now' - start > w := not_lt.mpr hin
      cases hst : pyDotGet j "status" with
      | error e' => simp only [hst] at hbody; exact Bool.noConfusion hbody
      | ok st =>
        simp only [hst, Bool.and_eq_true, Bool.not_eq_true'] at hbody
        rw [List.cons_append, pollLoop_inProgress hle hst hbody.1 hbody.2, hrec]
        simp

/-! ## Extraction-client lemmas -/

theorem extract_invoice_configError {cfg : Config} {post : PostResponse}
    {start : ℚ} {trace : List (ℚ × PollBody)}
    (h : optTruthy cfg.endpoint = false ∨ optTruthy cfg.key = false) :
    extract_invoice cfg post start trace = (.err .configError, 0) := by
  rcases h with h | h <;> simp [extract_invoice, h]

theorem extract_invoice_requests_pos {cfg : Config} {post : PostResponse}
    {start : ℚ} {trace : List (ℚ × PollBody)}
    (h : 1 ≤ (extract_invoice cfg post start trace).2) :
    optTruthy cfg.endpoint = true ∧ optTruthy cfg.key = true := by
  cases he : optTruthy cfg.endpoint with
  | false => rw [extract_invoice_configError (Or.inl he)] at h; exact absurd h (by simp)
  | true =>
    cases hk : optTruthy cfg.key with
    | false => rw [extract_invoice_configError (Or.inr hk)] at h; exact absurd h (by simp)
    | true => exact ⟨rfl, rfl⟩

theorem extract_invoice_rejected {cfg : Config} {post : PostResponse}
    {start : ℚ} {trace : List (ℚ × PollBody)}
    (he : optTruthy cfg.endpoint = true) (hk : optTruthy cfg.key = true)
    (hs : post.status_code ≠ 202) :
    extract_invoice cfg post start trace =
      (.err (.backendRejected post.status_code post.text), 1) := by
  simp [extract_invoice, he, hk, hs]

theorem extract_invoice_noHeader {cfg : Config} {post : PostResponse}
    {start : ℚ} {trace : List (ℚ × PollBody)}
    (he : optTruthy cfg.endpoint = true) (hk : optTruthy cfg.key = true)
    (hs : post.status_code = 202)
    (hh : headerGet post.headers "Operation-Location" = none) :
    extract_invoice cfg post start trace = (.err (.keyError "Operation-Location"), 1) := by
  simp [extract_invoice, he, hk, hs, hh]

theorem extract_invoice_emptyHeader {cfg : Config} {post : PostResponse}
    {start : ℚ} {trace : List (ℚ × PollBody)}
    (he : optTruthy cfg.endpoint = true) (hk : optTruthy cfg.key = true)
    (hs : post.status_code = 202)
    (hh : headerGet post.headers "Operation-Location" = some "") :
    extract_invoice cfg post start trace = (.err .missingOpLocation, 1) := by
  simp [extract_invoice, he, hk, hs, hh]

theorem extract_invoice_polls {cfg : Config} {post : PostResponse}
    {start : ℚ} {trace : List (ℚ × PollBody)} {u : String}
    (he : optTruthy cfg.endpoint = true) (hk : optTruthy cfg.key = true)
    (hs : post.status_code = 202)
    (hh : headerGet post.headers "Operation-Location" = some u) (hu : u ≠ "") :
    extract_invoice cfg post start trace =
      ((pollLoop MAX_WAIT_SECONDS start trace).1,
       (pollLoop MAX_WAIT_SECONDS start trace).2 + 1) := by
  simp [extract_invoice, he, hk, hs, hh, hu]

/-! ## Error analysis of the normalizer -/

theorem exceptBind_ok {α β : Type} (a : α) (f : α → Except PyErr β) :
    (Bind.bind (Except.ok a) f) = f a := rfl

theorem exceptBind_error {α β : Type} (e : PyErr) (f : α → Except PyErr β) :
    (Bind.bind (Except.error e : Except PyErr α) f) = Except.error e := rfl

theorem bindOkCase {α β : Type} {m : Except PyErr α} {f : α → Except PyErr β}
    {b : β} (h : (m >>= f) = .ok b) : ∃ a, m = .ok a ∧ f a = .ok b := by
  cases m with
  | ok a => exact ⟨a, rfl, h⟩
  | error e => exact absurd h (by simp [exceptBind_error])

theorem bindErrCase {α β : Type} {m : Except PyErr α} {f : α → Except PyErr β}
    {e : PyErr} (h : (m >>= f) = .error e) :
    (∃ a, m = .ok a ∧ f a = .error e) ∨ m = .error e := by
  cases m with
  | ok a => exact Or.inl ⟨a, rfl, h⟩
  | error e' =>
    right
    have : e' = e := by
      have h' : (Except.error e' : Except PyErr β) = .error e := h
      exact (Except.error.inj h')
    rw [this]

theorem pyContains_error {j : Json} {k : String} {e : PyErr}
    (h : pyContains j k = .error e) : e = .typeError := by
  cases j <;> simp [pyContains] at h <;> exact h.symm

theorem pyGetItem_error {j : Json} {k : String} {e : PyErr}
    (h : pyGetItem j k = .error e) : isStructuralErr e = true := by
  cases j <;> simp [pyGetItem] at h
  case obj kvs =>
    cases hd : dictGet kvs k with
    | some v => rw [hd] at h; simp at h
    | none => rw [hd] at h; simp at h; rw [← h]; rfl
  all_goals (rw [← h]; rfl)

theorem pyIndexZero_error {j : Json} {e : PyErr}
    (h : pyIndexZero j = .error e) : isStructuralErr e = true := by
  cases j with
  | arr xs =>
    cases xs with
    | nil => simp [pyIndexZero] at h; rw [← h]; rfl
    | cons x rest => simp [pyIndexZero] at h
  | str s =>
    cases hs : s.data with
    | nil => simp [pyIndexZero, hs] at h; rw [← h]; rfl
    | cons c cs => simp [pyIndexZero, hs] at h
  | obj kvs => simp [pyIndexZero] at h; rw [← h]; rfl
  | null => simp [pyIndexZero] at h; rw [← h]; rfl
  | bool b => simp [pyIndexZero] at h; rw [← h]; rfl
  | num q => simp [pyIndexZero] at h; rw [← h]; rfl

theorem pyDotGet_error {j : Json} {k : String} {e : PyErr}
    (h : pyDotGet j k = .error e) : e = .attributeError := by
  cases j <;> simp [pyDotGet] at h <;> exact h.symm

theorem pyDotGet_ok_shape {j : Json} {k : String} {v : Json}
    (h : pyDotGet j k = .ok v) : ∃ kvs, j = .obj kvs := by
  cases j <;> simp [pyDotGet] at h
  case obj kvs => exact ⟨kvs, rfl⟩

theorem pyGetItem_ok {j : Json} {k : String} {v : Json}
    (h : pyGetItem j k = .ok v) : ∃ kvs, j = .obj kvs ∧ dictGet kvs k = some v := by
  cases j <;> simp [pyGetItem] at h
  case obj kvs =>
    cases hd : dictGet kvs k with
    | some w => rw [hd] at h; simp at h; exact ⟨kvs, rfl, by rw [hd, h]⟩
    | none => rw [hd] at h; simp at h

theorem tryBranch_error_cases {field : Json} {k : String}
    {onHit : Json → Except PyErr Json} {onMiss : Unit → Except PyErr Json}
    {e : PyErr} (h : tryBranch field k onHit onMiss = .error e) :
    (∃ e', pyContains field k = .error e' ∧ e = e') ∨
    (∃ v, pyGetItem field k = .ok v ∧ onHit v = .error e) ∨
    (∃ e', pyGetItem field k = .error e' ∧ e = e') ∨
    onMiss () = .error e := by
  unfold tryBranch at h
  cases hc : pyContains field k with
  | error e' =>
    rw [hc] at h
    exact Or.inl ⟨e', rfl, (Except.error.inj h).symm⟩
  | ok b =>
    rw [hc] at h
    cases b with
    | false => exact Or.inr (Or.inr (Or.inr h))
    | true =>
      cases hg : pyGetItem field k with
      | error e' =>
        rw [hg] at h
        exact Or.inr (Or.inr (Or.inl ⟨e', rfl, (Except.error.inj h).symm⟩))
      | ok v =>
        rw [hg] at h
        exact Or.inr (Or.inl ⟨v, rfl, h⟩)

theorem get_value_error_structural {j : Json} {e : PyErr}
    (h : get_value j = .error e) : isStructuralErr e = true := by
  unfold get_value at h
  by_cases ht : truthy j = false
  · rw [if_pos ht] at h; exact absurd h (by simp)
  · rw [if_neg ht] at h
    rcases tryBranch_error_cases h with ⟨e', hc, rfl⟩ | ⟨v, _, hv⟩ | ⟨e', hg, rfl⟩ | h
    · rw [pyContains_error hc]; rfl
    · exact absurd hv (by simp)
    · exact pyGetItem_error hg
    rcases tryBranch_error_cases h with ⟨e', hc, rfl⟩ | ⟨v, _, hv⟩ | ⟨e', hg, rfl⟩ | h
    · rw [pyContains_error hc]; rfl
    · exact absurd hv (by simp)
    · exact pyGetItem_error hg
    rcases tryBranch_error_cases h with ⟨e', hc, rfl⟩ | ⟨v, _, hv⟩ | ⟨e', hg, rfl⟩ | h
    · rw [pyContains_error hc]; rfl
    · exact absurd hv (by simp)
    · exact pyGetItem_error hg
    rcases tryBranch_error_cases h with ⟨e', hc, rfl⟩ | ⟨v, _, hv⟩ | ⟨e', hg, rfl⟩ | h
    · rw [pyContains_error hc]; rfl
    · rw [pyDotGet_error hv]; rfl
    · exact pyGetItem_error hg
    rcases tryBranch_error_cases h with ⟨e', hc, rfl⟩ | ⟨v, _, hv⟩ | ⟨e', hg, rfl⟩ | h
    · rw [pyContains_error hc]; rfl
    · exact absurd hv (by simp)
    · exact pyGetItem_error hg
    rcases tryBranch_error_cases h with ⟨e', hc, rfl⟩ | ⟨v, _, hv⟩ | ⟨e', hg, rfl⟩ | h
    · rw [pyContains_error hc]; rfl
    · exact absurd hv (by simp)
    · exact pyGetItem_error hg
    · exact absurd h (by simp)

/-- Eliminator for a failing `Except` bind: either the first action failed
with the same error, or it succeeded and the continuation failed. -/
theorem bindErrElim {α β : Type} {m : Except PyErr α} {f : α → Except PyErr β}
    {e : PyErr} {P : Prop} (h : (m >>= f) = .error e)
    (hErr : m = .error e → P)
    (hOk : ∀ a, m = .ok a → f a = .error e → P) : P := by
  rcases bindErrCase h with ⟨a, ha, hf⟩ | hm
  · exact hOk a ha hf
  · exact hErr hm

theorem normalizeItems_error_structural {xs : List Json} {e : PyErr}
    (h : normalizeItems xs = .error e) : isStructuralErr e = true := by
  induction xs with
  | nil => exact absurd h (by simp [normalizeItems])
  | cons item rest ih =>
    rw [normalizeItems] at h
    refine bindErrElim h (fun h => get_value_error_structural h) (fun o ho h => ?_)
    by_cases ht : truthy o = false
    · rw [if_pos ht] at h; exact ih h
    rw [if_neg ht] at h
    refine bindErrElim h (fun h => by rw [pyDotGet_error h]; rfl) (fun v1 hv1 h => ?_)
    refine bindErrElim h (fun h => get_value_error_structural h) (fun d hd h => ?_)
    refine bindErrElim h (fun h => by rw [pyDotGet_error h]; rfl) (fun v2 hv2 h => ?_)
    refine bindErrElim h (fun h => get_value_error_structural h) (fun q hq h => ?_)
    refine bindErrElim h (fun h => by rw [pyDotGet_error h]; rfl) (fun v3 hv3 h => ?_)
    refine bindErrElim h (fun h => get_value_error_structural h) (fun u hu h => ?_)
    refine bindErrElim h (fun h => by rw [pyDotGet_error h]; rfl) (fun v4 hv4 h => ?_)
    refine bindErrElim h (fun h => get_value_error_structural h) (fun a ha h => ?_)
    refine bindErrElim h (fun h => ih h) (fun tail htail h => ?_)
    exact absurd h (by simp [pure, Except.pure])

/-- Every failure of the normalizer is a structural lookup exception —
the normalizer raises no error outside the `MalformedResult` group. -/
theorem normalize_error_structural {raw : Json} {e : PyErr}
    (h : normalize_invoice raw = .error e) : isStructuralErr e = true := by
  rw [normalize_invoice] at h
  refine bindErrElim h (fun h => pyGetItem_error h) (fun ar har h => ?_)
  refine bindErrElim h (fun h => pyGetItem_error h) (fun docs hdocs h => ?_)
  refine bindErrElim h (fun h => pyIndexZero_error h) (fun doc hdoc h => ?_)
  refine bindErrElim h (fun h => pyGetItem_error h) (fun fields hfields h => ?_)
  refine bindErrElim h (fun h => by rw [pyDotGet_error h]; rfl) (fun f1 hf1 h => ?_)
  refine bindErrElim h (fun h => get_value_error_structural h) (fun invoice_id hiid h => ?_)
  refine bindErrElim h (fun h => by rw [pyDotGet_error h]; rfl) (fun f2 hf2 h => ?_)
  refine bindErrElim h (fun h => get_value_error_structural h) (fun vendor_name hvn h => ?_)
  refine bindErrElim h (fun h => by rw [pyDotGet_error h]; rfl) (fun f3 hf3 h => ?_)
  refine bindErrElim h (fun h => get_value_error_structural h) (fun vendor_address hva h => ?_)
  refine bindErrElim h (fun h => by rw [pyDotGet_error h]; rfl) (fun f4 hf4 h => ?_)
  refine bindErrElim h (fun h => get_value_error_structural h) (fun customer_name hcn h => ?_)
  refine bindErrElim h (fun h => by rw [pyDotGet_error h]; rfl) (fun f5 hf5 h => ?_)
  refine bindErrElim h (fun h => get_value_error_structural h) (fun invoice_date hivd h => ?_)
  refine bindErrElim h (fun h => by rw [pyDotGet_error h]; rfl) (fun f6 hf6 h => ?_)
  refine bindErrElim h (fun h => get_value_error_structural h) (fun due_date hdd h => ?_)
  refine bindErrElim h (fun h => by rw [pyDotGet_error h]; rfl) (fun f7 hf7 h => ?_)
  refine bindErrElim h (fun h => get_value_error_structural h) (fun total_amount hta h => ?_)
  refine bindErrElim h (fun h => by rw [pyDotGet_error h]; rfl) (fun f8 hf8 h => ?_)
  refine bindErrElim h (fun h => get_value_error_structural h) (fun total_tax htt h => ?_)
  refine bindErrElim h (fun h => by rw [pyDotGet_error h]; rfl) (fun f9 hf9 h => ?_)
  refine bindErrElim h (fun h => get_value_error_structural h) (fun itemsVal hitv h => ?_)
  cases htv : truthy itemsVal with
  | false =>
    simp only [htv] at h
    rw [if_neg (by simp)] at h
    simp only [exceptBind_ok] at h
    refine bindErrElim h (fun h => normalizeItems_error_structural h)
      (fun items hit h => ?_)
    refine bindErrElim h (fun h => by rw [pyDotGet_error h]; rfl)
      (fun confidence hcf h => ?_)
    exact absurd h (by simp [pure, Except.pure])
  | true =>
    simp only [htv] at h
    rw [if_pos trivial] at h
    cases itemsVal with
    | null => exact absurd htv (by simp [truthy])
    | bool b =>
      simp only [exceptBind_error] at h
      rw [← Except.error.inj h]; rfl
    | num q =>
      simp only [exceptBind_error] at h
      rw [← Except.error.inj h]; rfl
    | str s =>
      simp only [exceptBind_ok] at h
      refine bindErrElim h (fun h => normalizeItems_error_structural h)
        (fun items hit h => ?_)
      refine bindErrElim h (fun h => by rw [pyDotGet_error h]; rfl)
        (fun confidence hcf h => ?_)
      exact absurd h (by simp [pure, Except.pure])
    | arr xs =>
      simp only [exceptBind_ok] at h
      refine bindErrElim h (fun h => normalizeItems_error_structural h)
        (fun items hit h => ?_)
      refine bindErrElim h (fun h => by rw [pyDotGet_error h]; rfl)
        (fun confidence hcf h => ?_)
      exact absurd h (by simp [pure, Except.pure])
    | obj kvs =>
      simp only [exceptBind_ok] at h
      refine bindErrElim h (fun h => normalizeItems_error_structural h)
        (fun items hit h => ?_)
      refine bindErrElim h (fun h => by rw [pyDotGet_error h]; rfl)
        (fun confidence hcf h => ?_)
      exact absurd h (by simp [pure, Except.pure])

theorem normalize_ok_envelope {raw r : Json}
    (h : normalize_invoice raw = .ok r) : (envelopeFields raw).isSome = true := by
  rw [normalize_invoice] at h
  obtain ⟨ar, har, h⟩ := bindOkCase h
  obtain ⟨docs, hdocs, h⟩ := bindOkCase h
  obtain ⟨doc, hdoc, h⟩ := bindOkCase h
  obtain ⟨fields, hfields, h⟩ := bindOkCase h
  obtain ⟨f1, hf1, h⟩ := bindOkCase h
  obtain ⟨kvs, hraw, hga⟩ := pyGetItem_ok har
  obtain ⟨akvs, har2, hgd⟩ := pyGetItem_ok hdocs
  obtain ⟨dkvs, hdoc2, hgf⟩ := pyGetItem_ok hfields
  obtain ⟨fkvs, hfields2⟩ := pyDotGet_ok_shape hf1
  subst hraw har2 hdoc2 hfields2
  cases docs with
  | arr xs =>
    cases xs with
    | nil => simp [pyIndexZero] at hdoc
    | cons x rest =>
      simp only [pyIndexZero] at hdoc
      have hx : x = Json.obj dkvs := Except.ok.inj hdoc
      subst hx
      simp [envelopeFields, hga, hgd, hgf]
  | str s =>
    cases hs : s.data with
    | nil => simp [pyIndexZero, hs] at hdoc
    | cons c cs => simp [pyIndexZero, hs] at hdoc
  | null => simp [pyIndexZero] at hdoc
  | bool b => simp [pyIndexZero] at hdoc
  | num q => simp [pyIndexZero] at hdoc
  | obj okvs => simp [pyIndexZero] at hdoc

/-- A raw result whose document envelope is absent — in the sense the claim
spells out (no `analyzeResult` object, no `documents` array, an empty
`documents` array, a first document that is not an object with a `fields`
mapping) — makes the normalizer fail, and with one of the structural
(`MalformedResult`-kind) errors. -/
theorem normalize_noEnvelope {raw : Json} (h : envelopeFields raw = none) :
    ∃ e, normalize_invoice raw = .error e ∧ isStructuralErr e = true := by
  cases hn : normalize_invoice raw with
  | ok r =>
    have hs := normalize_ok_envelope hn
    rw [h] at hs
    exact absurd hs (by simp)
  | error e => exact ⟨e, rfl, normalize_error_structural hn⟩

theorem envelopeFields_some_inv {raw : Json} {dkvs fkvs : List (String × Json)}
    (h : envelopeFields raw = some (dkvs, fkvs)) :
    ∃ kvs akvs ds, raw = .obj kvs ∧
      dictGet kvs "analyzeResult" = some (.obj akvs) ∧
      dictGet akvs "documents" = some (.arr (Json.obj dkvs :: ds)) ∧
      dictGet dkvs "fields" = some (.obj fkvs) := by
  cases raw with
  | null => exact absurd h (by simp [envelopeFields])
  | bool b => exact absurd h (by simp [envelopeFields])
  | num q => exact absurd h (by simp [envelopeFields])
  | str s => exact absurd h (by simp [envelopeFields])
  | arr l => exact absurd h (by simp [envelopeFields])
  | obj kvs =>
  simp only [envelopeFields] at h
  cases hga : dictGet kvs "analyzeResult" with
  | none => simp only [hga] at h; exact absurd h (by simp)
  | some ar =>
    simp only [hga] at h
    cases ar with
    | null => exact absurd h (by simp)
    | bool b => exact absurd h (by simp)
    | num q => exact absurd h (by simp)
    | str s => exact absurd h (by simp)
    | arr l => exact absurd h (by simp)
    | obj akvs =>
    cases hgd : dictGet akvs "documents" with
    | none => simp only [hgd] at h; exact absurd h (by simp)
    | some docs =>
      simp only [hgd] at h
      cases docs with
      | null => exact absurd h (by simp)
      | bool b => exact absurd h (by simp)
      | num q => exact absurd h (by simp)
      | str s => exact absurd h (by simp)
      | obj okvs => exact absurd h (by simp)
      | arr xs =>
      cases xs with
      | nil => exact absurd h (by simp)
      | cons x ds =>
        cases x with
        | null => exact absurd h (by simp)
        | bool b => exact absurd h (by simp)
        | num q => exact absurd h (by simp)
        | str s => exact absurd h (by simp)
        | arr l => exact absurd h (by simp)
        | obj dkvs0 =>
        cases hgf : dictGet dkvs0 "fields" with
        | none => simp only [hgf] at h; exact absurd h (by simp)
        | some f =>
          simp only [hgf] at h
          cases f with
          | null => exact absurd h (by simp)
          | bool b => exact absurd h (by simp)
          | num q => exact absurd h (by simp)
          | str s => exact absurd h (by simp)
          | arr l => exact absurd h (by simp)
          | obj fkvs0 =>
          have h1 : dkvs0 = dkvs := congrArg Prod.fst (Option.some.inj h)
          have h2 : fkvs0 = fkvs := congrArg Prod.snd (Option.some.inj h)
          subst h1 h2
          exact ⟨kvs, akvs, ds, rfl, hga, hgd, hgf⟩

/-! ## Well-shaped raw results (the inputs on which normalization succeeds) -/

/-- The value `fields.get(n)` as read by the normalizer: the stored value, or null. -/
def fieldAt (fkvs : List (String × Json)) (n : String) : Json :=
  (dictGet fkvs n).getD .null

/-- The eight scalar fields the normalizer reads. -/
def scalarNames : List String :=
  ["InvoiceId", "VendorName", "VendorAddress", "CustomerName",
   "InvoiceDate", "DueDate", "InvoiceTotal", "TotalTax"]

/-- The four nested line-item fields. -/
def itemSubNames : List String := ["Description", "Quantity", "UnitPrice", "Amount"]

/-- Holds when `get_value` succeeds on this field value. -/
def gvOk (j : Json) : Bool :=
  match get_value j with
  | .ok _ => true
  | .error _ => false

/-- An `Items` array entry on which the item loop cannot fail: its unwrap
succeeds, and the result is either falsy (the entry is skipped) or an object
whose four nested fields unwrap without error. -/
def validItemEntry (item : Json) : Bool :=
  match get_value item with
  | .error _ => false
  | .ok o =>
    if truthy o = false then true
    else
      match o with
      | .obj okvs => itemSubNames.all (fun n => gvOk (fieldAt okvs n))
      | _ => false

/-- An unwrapped `Items` value on which the item phase cannot fail: falsy
(replaced by the empty list) or an array of valid entries. -/
def validItemsVal (v : Json) : Bool :=
  if truthy v = false then true
  else
    match v with
    | .arr xs => xs.all validItemEntry
    | _ => false

/-- A raw result carrying the document envelope and, inside it, only field
values the unwrapping functions accept: the well-shaped inputs. -/
def wellShapedRaw (raw : Json) : Bool :=
  match envelopeFields raw with
  | none => false
  | some (_, fkvs) =>
    scalarNames.all (fun n => gvOk (fieldAt fkvs n)) &&
    (match get_value (fieldAt fkvs "Items") with
     | .error _ => false
     | .ok v => validItemsVal v)

theorem gvOk_ok {j : Json} (h : gvOk j = true) : ∃ v, get_value j = .ok v := by
  rw [gvOk] at h
  cases hg : get_value j with
  | ok v => exact ⟨v, rfl⟩
  | error e => rw [hg] at h; exact absurd h (by simp)

theorem pyDotGet_obj (okvs : List (String × Json)) (n : String) :
    pyDotGet (.obj okvs) n = .ok (fieldAt okvs n) := rfl

theorem normalizeItems_ok_of_valid {xs : List Json}
    (h : ∀ x ∈ xs, validItemEntry x = true) :
    ∃ ys, normalizeItems xs = .ok ys := by
  induction xs with
  | nil => exact ⟨[], rfl⟩
  | cons item rest ih =>
    obtain ⟨ys, hys⟩ := ih (fun x hx => h x (List.mem_cons_of_mem _ hx))
    have hhead := h item (List.mem_cons_self _ _)
    rw [validItemEntry] at hhead
    cases hgv : get_value item with
    | error e => rw [hgv] at hhead; exact absurd hhead (by simp)
    | ok o =>
      simp only [hgv] at hhead
      by_cases ht : truthy o = false
      · refine ⟨ys, ?_⟩
        rw [normalizeItems]
        simp only [hgv, exceptBind_ok]
        rw [if_pos ht, hys]
      · rw [if_neg ht] at hhead
        cases o with
        | null => exact absurd hhead (by simp)
        | bool b => exact absurd hhead (by simp)
        | num q => exact absurd hhead (by simp)
        | str s => exact absurd hhead (by simp)
        | arr l => exact absurd hhead (by simp)
        | obj okvs =>
        simp only [itemSubNames, List.all_cons, List.all_nil, Bool.and_eq_true] at hhead
        obtain ⟨g1, g2, g3, g4, -⟩ := hhead
        obtain ⟨vd, hvd⟩ := gvOk_ok g1
        obtain ⟨vq, hvq⟩ := gvOk_ok g2
        obtain ⟨vu, hvu⟩ := gvOk_ok g3
        obtain ⟨va, hva⟩ := gvOk_ok g4
        refine ⟨Json.obj [("description", vd), ("quantity", vq),
          ("unit_price", vu), ("amount", va)] :: ys, ?_⟩
        rw [normalizeItems]
        simp only [hgv, exceptBind_ok]
        rw [if_neg ht]
        simp only [pyDotGet_obj, exceptBind_ok, hvd, hvq, hvu, hva, hys]
        rfl

/-- On every well-shaped raw result the normalizer succeeds. -/
theorem normalize_ok_of_wellShaped {raw : Json} (h : wellShapedRaw raw = true) :
    ∃ r, normalize_invoice raw = .ok r := by
  rw [wellShapedRaw] at h
  cases henv : envelopeFields raw with
  | none => rw [henv] at h; exact absurd h (by simp)
  | some pr =>
    obtain ⟨dkvs, fkvs⟩ := pr
    rw [henv] at h
    simp only [Bool.and_eq_true] at h
    obtain ⟨hscal, hitems⟩ := h
    obtain ⟨kvs, akvs, ds, hraw, hga, hgd, hgf⟩ := envelopeFields_some_inv henv
    subst hraw
    simp only [scalarNames, List.all_cons, List.all_nil, Bool.and_eq_true] at hscal
    obtain ⟨g1, g2, g3, g4, g5, g6, g7, g8, -⟩ := hscal
    obtain ⟨v1, hv1⟩ := gvOk_ok g1
    obtain ⟨v2, hv2⟩ := gvOk_ok g2
    obtain ⟨v3, hv3⟩ := gvOk_ok g3
    obtain ⟨v4, hv4⟩ := gvOk_ok g4
    obtain ⟨v5, hv5⟩ := gvOk_ok g5
    obtain ⟨v6, hv6⟩ := gvOk_ok g6
    obtain ⟨v7, hv7⟩ := gvOk_ok g7
    obtain ⟨v8, hv8⟩ := gvOk_ok g8
    have e1 : pyGetItem (Json.obj kvs) "analyzeResult" = .ok (.obj akvs) := by
      simp [pyGetItem, hga]
    have e2 : pyGetItem (Json.obj akvs) "documents" = .ok (.arr (Json.obj dkvs :: ds)) := by
      simp [pyGetItem, hgd]
    have e3 : pyIndexZero (.arr (Json.obj dkvs :: ds)) = .ok (.obj dkvs) := rfl
    have e4 : pyGetItem (Json.obj dkvs) "fields" = .ok (.obj fkvs) := by
      simp [pyGetItem, hgf]
    cases hIv : get_value (fieldAt fkvs "Items") with
    | error e => rw [hIv] at hitems; exact absurd hitems (by simp)
    | ok iv =>
      simp only [hIv] at hitems
      rw [validItemsVal.eq_def] at hitems
      have bo : ∀ {α β : Type} (a : α) (f : α → Except PyErr β),
        (Bind.bind (Except.ok a) f) = f a := fun a f => rfl
      by_cases htv : truthy iv = false
      · refine ⟨Json.obj [("invoice_id", v1), ("invoice_date", v5), ("due_date", v6),
          ("vendor_name", v2), ("vendor_address", v3), ("customer_name", v4),
          ("total_amount", v7), ("total_tax", v8), ("items", .arr []),
          ("confidence", fieldAt dkvs "confidence")], ?_⟩
        rw [normalize_invoice]
        simp only [e1, e2, e3, e4, pyDotGet_obj, bo,
          hv1, hv2, hv3, hv4, hv5, hv6, hv7, hv8, hIv, htv]
        rw [if_neg (by simp [htv])]
        simp only [bo]
        rfl
      · rw [if_neg htv] at hitems
        cases iv with
        | null => exact absurd hitems (by simp)
        | bool b => exact absurd hitems (by simp)
        | num q => exact absurd hitems (by simp)
        | str s => exact absurd hitems (by simp)
        | obj okvs => exact absurd hitems (by simp)
        | arr xs =>
          have hvalid : ∀ x ∈ xs, validItemEntry x = true := by
            rw [List.all_eq_true] at hitems; exact hitems
          obtain ⟨ys, hys⟩ := normalizeItems_ok_of_valid hvalid
          have htv2 : truthy (Json.arr xs) = true := by
            cases hb : truthy (Json.arr xs) with
            | false => exact absurd hb htv
            | true => rfl
          refine ⟨Json.obj [("invoice_id", v1), ("invoice_date", v5), ("due_date", v6),
            ("vendor_name", v2), ("vendor_address", v3), ("customer_name", v4),
            ("total_amount", v7), ("total_tax", v8), ("items", .arr ys),
            ("confidence", fieldAt dkvs "confidence")], ?_⟩
          rw [normalize_invoice]
          simp only [e1, e2, e3, e4, pyDotGet_obj, bo,
            hv1, hv2, hv3, hv4, hv5, hv6, hv7, hv8, hIv]
          rw [if_pos (by rw [htv2])]
          simp only [bo, hys]
          rfl

/-! ## Service-composition lemmas -/

theorem process_invoice_empty {pdf_bytes : List Nat} {cfg : Config}
    {post : PostResponse} {start : ℚ} {trace : List (ℚ × PollBody)}
    (h : pdf_bytes = []) :
    process_invoice_bytes pdf_bytes cfg post start trace = (.err .emptyInput, 0) := by
  subst h; rfl

/-! ## Concrete inputs used by witnesses and counterexamples -/

/-- A configuration with both environment variables set and non-empty. -/
def cfgGood : Config := ⟨some "https://resource.example", some "secret-key"⟩

/-- A configuration with the key unset. -/
def cfgNoKey : Config := ⟨some "https://resource.example", none⟩

/-- A rejected submission: status 400 with a diagnostic body. -/
def postRejected : PostResponse := ⟨400, [], "Bad request"⟩

/-- An accepted submission carrying no `Operation-Location` header. -/
def postNoHeader : PostResponse := ⟨202, [("Content-Length", "0")], ""⟩

/-- An accepted submission with the operation URL header. -/
def postAccepted : PostResponse := ⟨202, [("Operation-Location", "https://op.example/1")], ""⟩

/-- A poll body with status `running`. -/
def bodyRunning : PollBody := .json (.obj [("status", .str "running")])

/-- The raw result of the C1 scenario: one document whose `Items` field is
an array of two object entries — one fully populated, one whose object is
present but has no sub-fields (an empty mapping). -/
def rawItemsTwoEntries : Json :=
  .obj [("analyzeResult", .obj [("documents", .arr [
    .obj [("fields", .obj [("Items", .obj [("valueArray", .arr [
      .obj [("valueObject", .obj [
        ("Description", .obj [("valueString", .str "Widget")]),
        ("Quantity", .obj [("valueNumber", .num 2)]),
        ("UnitPrice", .obj [("valueNumber", .num 3)]),
        ("Amount", .obj [("valueNumber", .num 6)])])],
      .obj [("valueObject", .obj [])]])])])]])])]

/-- A raw result whose document envelope is fully present but whose
`InvoiceId` field holds a currency slot containing a bare number. -/
def rawBadCurrency : Json :=
  .obj [("analyzeResult", .obj [("documents", .arr [
    .obj [("fields", .obj [("InvoiceId", .obj [("valueCurrency", .num 5)])])]])])]

/-- A minimal raw result: envelope present, no fields at all. -/
def rawMinimal : Json :=
  .obj [("analyzeResult", .obj [("documents", .arr [.obj [("fields", .obj [])]])])]

/-- The `items` list of a normalization outcome, when it is a record. -/
def itemsOf (r : Except PyErr Json) : Option (List Json) :=
  match r with
  | .ok (.obj kvs) =>
    match dictGet kvs "items" with
    | some (.arr xs) => some xs
    | _ => none
  | _ => none

theorem failed_not_succeeded {st : Json} (h : isStrEq st "failed" = true) :
    isStrEq st "succeeded" = false := by
  cases st with
  | str s =>
    simp only [isStrEq, beq_iff_eq] at h ⊢
    rw [h]; decide
  | null => rfl
  | bool b => rfl
  | num q => rfl
  | arr xs => rfl
  | obj kvs => rfl

/-! ## The claims -/

/-- Claim C3: `get_value` is total over typed-value inputs — on every typed
value it returns (never raises), and its result is exactly what the spec
describes shape by shape (`unwrapValueSpec`): string/number/date scalars
pass through, a currency slot reduces to its `amount` sub-field, array and
object slots pass their content through, and an absent/null or slot-less
field unwraps to null. -/
theorem claim_C3_unwrap_total (j : Json) (h : isTypedValue j = true) :
    get_value j = .ok (unwrapValueSpec j) :=
  getValue_eq_spec_of_typed j h

theorem claim_C3_wit :
    isTypedValue (.obj [("valueCurrency",
      .obj [("amount", .num 5), ("currencyCode", .str "USD")])]) = true ∧
    get_value (.obj [("valueCurrency",
      .obj [("amount", .num 5), ("currencyCode", .str "USD")])])
      = .ok (unwrapValueSpec (.obj [("valueCurrency",
        .obj [("amount", .num 5), ("currencyCode", .str "USD")])])) :=
  ⟨rfl, claim_C3_unwrap_total _ rfl⟩

/-- Claim C10: when a field record populates several value slots, `get_value`
follows the fixed precedence `valueString`, `valueNumber`, `valueDate`,
`valueCurrency`, `valueArray`, `valueObject`: each slot's result is returned
exactly when every earlier slot is absent, regardless of later slots. -/
theorem claim_C10_slot_precedence (kvs : List (String × Json)) :
    (∀ v, dictGet kvs "valueString" = some v → get_value (.obj kvs) = .ok v) ∧
    (dictGet kvs "valueString" = none →
      ∀ v, dictGet kvs "valueNumber" = some v → get_value (.obj kvs) = .ok v) ∧
    (dictGet kvs "valueString" = none → dictGet kvs "valueNumber" = none →
      ∀ v, dictGet kvs "valueDate" = some v → get_value (.obj kvs) = .ok v) ∧
    (dictGet kvs "valueString" = none → dictGet kvs "valueNumber" = none →
      dictGet kvs "valueDate" = none →
      ∀ c, dictGet kvs "valueCurrency" = some c →
        get_value (.obj kvs) = pyDotGet c "amount") ∧
    (dictGet kvs "valueString" = none → dictGet kvs "valueNumber" = none →
      dictGet kvs "valueDate" = none → dictGet kvs "valueCurrency" = none →
      ∀ v, dictGet kvs "valueArray" = some v → get_value (.obj kvs) = .ok v) ∧
    (dictGet kvs "valueString" = none → dictGet kvs "valueNumber" = none →
      dictGet kvs "valueDate" = none → dictGet kvs "valueCurrency" = none →
      dictGet kvs "valueArray" = none →
      ∀ v, dictGet kvs "valueObject" = some v → get_value (.obj kvs) = .ok v) :=
  ⟨fun _ h => get_value_obj_string h,
   fun h1 _ h => get_value_obj_number h1 h,
   fun h1 h2 _ h => get_value_obj_date h1 h2 h,
   fun h1 h2 h3 _ h => get_value_obj_currency h1 h2 h3 h,
   fun h1 h2 h3 h4 _ h => get_value_obj_array h1 h2 h3 h4 h,
   fun h1 h2 h3 h4 h5 _ h => get_value_obj_object h1 h2 h3 h4 h5 h⟩

theorem claim_C10_wit :
    get_value (.obj [("valueString", .str "s"), ("valueNumber", .num 2)])
      = .ok (.str "s") :=
  (claim_C10_slot_precedence
    [("valueString", .str "s"), ("valueNumber", .num 2)]).1 _ rfl

/-- Claim C1 (amended): an `Items` entry is skipped whenever its unwrapped
object is FALSY in Python — null or the empty mapping (`if not obj`) — not
only when it is null.  Consequently, in the claim's scenario (one fully
populated entry, one entry whose object is present but empty) the
normalized record has ONE item, the fully populated one, rather than two. -/
theorem claim_C1_items_skip :
    (∀ item rest v, get_value item = .ok v → truthy v = false →
      normalizeItems (item :: rest) = normalizeItems rest) ∧
    normalize_invoice rawItemsTwoEntries = .ok (Json.obj
      [("invoice_id", .null), ("invoice_date", .null), ("due_date", .null),
       ("vendor_name", .null), ("vendor_address", .null), ("customer_name", .null),
       ("total_amount", .null), ("total_tax", .null),
       ("items", .arr [Json.obj [("description", .str "Widget"), ("quantity", .num 2),
                       ("unit_price", .num 3), ("amount", .num 6)]]),
       ("confidence", .null)]) := by
  constructor
  · intro item rest v hv ht
    rw [normalizeItems]
    simp only [hv, exceptBind_ok]
    rw [if_pos ht]
  · rfl

/-- Claim C1, counterexample: on the claim's own scenario the normalized
`items` sequence has one entry, not the claimed two — the empty-object
entry is skipped because `if not obj` is true for an empty Python dict. -/
theorem claim_C1_cex :
    (itemsOf (normalize_invoice rawItemsTwoEntries)).map List.length ≠ some 2 := by
  intro h
  rw [show (itemsOf (normalize_invoice rawItemsTwoEntries)).map List.length
    = some 1 from rfl] at h
  exact absurd (Option.some.inj h) (by decide)

theorem claim_C1_wit :
    normalizeItems [Json.obj [("valueObject", .obj [])]] = normalizeItems [] :=
  claim_C1_items_skip.1 _ [] (.obj []) rfl rfl

/-- Claim C2 (amended): with a valid configuration, a non-202 submission
response raises the `BackendRejected` RuntimeError carrying the observed
status and body; a 202 response WITHOUT the `Operation-Location` header
raises the `KeyError` from the header lookup (not `BackendRejected`, and
carrying neither status nor body); a 202 response whose header is present
but empty raises the missing-header RuntimeError; polling happens exactly
when the response is 202 with a present, non-empty header. -/
theorem claim_C2_submission (cfg : Config) (post : PostResponse) (start : ℚ)
    (trace : List (ℚ × PollBody))
    (he : optTruthy cfg.endpoint = true) (hk : optTruthy cfg.key = true) :
    (post.status_code ≠ 202 →
      extract_invoice cfg post start trace =
        (.err (.backendRejected post.status_code post.text), 1)) ∧
    (post.status_code = 202 →
      headerGet post.headers "Operation-Location" = none →
      extract_invoice cfg post start trace =
        (.err (.keyError "Operation-Location"), 1)) ∧
    (post.status_code = 202 →
      headerGet post.headers "Operation-Location" = some "" →
      extract_invoice cfg post start trace = (.err .missingOpLocation, 1)) ∧
    (∀ u, post.status_code = 202 →
      headerGet post.headers "Operation-Location" = some u → u ≠ "" →
      extract_invoice cfg post start trace =
        ((pollLoop MAX_WAIT_SECONDS start trace).1,
         (pollLoop MAX_WAIT_SECONDS start trace).2 + 1)) :=
  ⟨fun hs => extract_invoice_rejected he hk hs,
   fun hs hh => extract_invoice_noHeader he hk hs hh,
   fun hs hh => extract_invoice_emptyHeader he hk hs hh,
   fun _ hs hh hu => extract_invoice_polls he hk hs hh hu⟩

/-- Claim C2, counterexample: a 202 submission response lacking the
`Operation-Location` header makes the client raise the header-lookup
`KeyError` — not a `BackendRejected` error carrying status and body. -/
theorem claim_C2_cex :
    (extract_invoice cfgGood postNoHeader 0 []).1
      = .err (.keyError "Operation-Location") ∧
    ¬ ∃ s b, (extract_invoice cfgGood postNoHeader 0 []).1
      = .err (.backendRejected s b) := by
  refine ⟨rfl, ?_⟩
  rintro ⟨s, b, hb⟩
  rw [show (extract_invoice cfgGood postNoHeader 0 []).1
    = .err (.keyError "Operation-Location") from rfl] at hb
  exact PyErr.noConfusion (RunOutcome.err.inj hb)

theorem claim_C2_wit :
    extract_invoice cfgGood postRejected 0 []
      = (.err (.backendRejected 400 "Bad request"), 1) :=
  (claim_C2_submission cfgGood postRejected 0 [] rfl rfl).1 (by decide)

/-- Claim C4 (amended): when the document envelope is absent the normalizer
fails, and with a structural (`MalformedResult`-kind) exception; when the
envelope is present AND every field value is well shaped it returns a
normalized record.  (A present envelope alone does not guarantee success:
see the counterexample, where an ill-shaped currency slot still raises.) -/
theorem claim_C4_malformed (raw : Json) :
    (envelopeFields raw = none →
      ∃ e, normalize_invoice raw = .error e ∧ isStructuralErr e = true) ∧
    (wellShapedRaw raw = true → ∃ r, normalize_invoice raw = .ok r) :=
  ⟨fun h => normalize_noEnvelope h, fun h => normalize_ok_of_wellShaped h⟩

/-- Claim C4, counterexample: a raw result whose envelope and field
container are fully present can still make the normalizer fail (here with
`AttributeError`: `InvoiceId` holds a currency slot containing a bare
number, so `currency.get("amount")` is called on a non-dict), refuting
"otherwise it returns a normalized invoice record". -/
theorem claim_C4_cex :
    (envelopeFields rawBadCurrency).isSome = true ∧
    normalize_invoice rawBadCurrency = .error .attributeError ∧
    ¬ ∃ r, normalize_invoice rawBadCurrency = .ok r := by
  refine ⟨rfl, rfl, ?_⟩
  rintro ⟨r, hr⟩
  rw [show normalize_invoice rawBadCurrency = .error .attributeError from rfl] at hr
  exact Except.noConfusion hr

theorem claim_C4_wit :
    envelopeFields (Json.obj []) = none ∧
    (∃ e, normalize_invoice (Json.obj []) = .error e ∧ isStructuralErr e = true) ∧
    wellShapedRaw rawMinimal = true ∧
    (∃ r, normalize_invoice rawMinimal = .ok r) :=
  ⟨rfl, (claim_C4_malformed (Json.obj [])).1 rfl, rfl,
   (claim_C4_malformed rawMinimal).2 rfl⟩

/-- Claim C5: if the elapsed wall-clock time exceeds the budget at the top
of a poll iteration — after any run of in-progress or unparseable
iterations — the loop raises the timeout having issued exactly one request
per completed earlier iteration and none from the timed-out iteration on. -/
theorem claim_C5_poll_timeout (w start : ℚ) (pre : List (ℚ × PollBody))
    (now : ℚ) (b : PollBody) (rest : List (ℚ × PollBody))
    (hpre : ∀ e ∈ pre, stepContinues w start e = true)
    (ht : now - start > w) :
    pollLoop w start (pre ++ (now, b) :: rest) = (.err .pollTimeout, pre.length) :=
  pollLoop_timeout_after_run w start pre now b rest hpre ht

theorem claim_C5_wit :
    pollLoop 5 0 [(0, bodyRunning), (1, .invalidJson), (7, bodyRunning)]
      = (.err .pollTimeout, 2) :=
  claim_C5_poll_timeout 5 0 [(0, bodyRunning), (1, .invalidJson)] 7 bodyRunning []
    (by
      refine (List.forall_mem_cons).2 ⟨?_, (List.forall_mem_cons).2 ⟨?_, ?_⟩⟩ <;>
        norm_num [stepContinues, bodyRunning, pyDotGet, dictGet, isStrEq]
      decide)
    (by norm_num)

/-- Claim C6: within the budget, a poll response whose status is `failed`
raises `BackendFailed` at once — the request count stays at this
iteration's single request no matter what responses would follow — and a
response whose status is `succeeded` returns the full parsed body
unchanged, likewise with no further request. -/
theorem claim_C6_terminal_states (w start now : ℚ) (j st : Json)
    (rest : List (ℚ × PollBody)) (h : ¬ now - start > w)
    (hst : pyDotGet j "status" = .ok st) :
    (isStrEq st "failed" = true →
      pollLoop w start ((now, .json j) :: rest) = (.err .backendFailed, 1)) ∧
    (isStrEq st "succeeded" = true →
      pollLoop w start ((now, .json j) :: rest) = (.ok j, 1)) :=
  ⟨fun hf => pollLoop_failed h hst (failed_not_succeeded hf) hf,
   fun hs => pollLoop_succeeded h hst hs⟩

theorem claim_C6_wit :
    pollLoop 60 0 [(0, .json (.obj [("status", .str "failed")])), (1, bodyRunning)]
      = (.err .backendFailed, 1) ∧
    pollLoop 60 0 [(0, .json (.obj [("status", .str "succeeded"),
      ("analyzeResult", .obj [("documents", .arr [])])]))]
      = (.ok (.obj [("status", .str "succeeded"),
          ("analyzeResult", .obj [("documents", .arr [])])]), 1) :=
  ⟨(claim_C6_terminal_states 60 0 0 (.obj [("status", .str "failed")])
      (.str "failed") [(1, bodyRunning)] (by norm_num) rfl).1 rfl,
   (claim_C6_terminal_states 60 0 0 (.obj [("status", .str "succeeded"),
      ("analyzeResult", .obj [("documents", .arr [])])])
      (.str "succeeded") [] (by norm_num) rfl).2 rfl⟩

/-- Claim C7: within the budget, an unparseable poll body does not fail the
client — the loop sleeps and continues with the remaining trace — and a
parsed body whose status is neither `succeeded` nor `failed` (absent status
included: `result_json.get("status")` then yields null) likewise continues;
in both cases the timeout is re-checked at the top of the next iteration,
as `pollLoop` recurses into its clock guard. -/
theorem claim_C7_transient_poll (w start now : ℚ) (rest : List (ℚ × PollBody))
    (h : ¬ now - start > w) :
    (pollLoop w start ((now, .invalidJson) :: rest) =
      ((pollLoop w start rest).1, (pollLoop w start rest).2 + 1)) ∧
    (∀ j st, pyDotGet j "status" = .ok st → isStrEq st "succeeded" = false →
      isStrEq st "failed" = false →
      pollLoop w start ((now, .json j) :: rest) =
        ((pollLoop w start rest).1, (pollLoop w start rest).2 + 1)) :=
  ⟨pollLoop_invalid h, fun _ _ hst hs hf => pollLoop_inProgress h hst hs hf⟩

theorem claim_C7_wit :
    pollLoop 60 0 [(0, .invalidJson)] = (.pending, 1) ∧
    pollLoop 60 0 [(0, .json (.obj [("other", .num 1)]))] = (.pending, 1) :=
  ⟨(claim_C7_transient_poll 60 0 0 [] (by norm_num)).1,
   (claim_C7_transient_poll 60 0 0 [] (by norm_num)).2
     (.obj [("other", .num 1)]) .null rfl rfl rfl⟩

/-- Claim C8: a missing or empty endpoint or key makes the client raise the
config `ValueError` having issued zero network requests; conversely, if at
least one request was issued, both endpoint and key were non-empty. -/
theorem claim_C8_config_check (cfg : Config) (post : PostResponse) (start : ℚ)
    (trace : List (ℚ × PollBody)) :
    (optTruthy cfg.endpoint = false ∨ optTruthy cfg.key = false →
      extract_invoice cfg post start trace = (.err .configError, 0)) ∧
    (1 ≤ (extract_invoice cfg post start trace).2 →
      optTruthy cfg.endpoint = true ∧ optTruthy cfg.key = true) :=
  ⟨extract_invoice_configError, extract_invoice_requests_pos⟩

theorem claim_C8_wit :
    extract_invoice cfgNoKey postAccepted 0 [] = (.err .configError, 0) :=
  (claim_C8_config_check cfgNoKey postAccepted 0 []).1 (Or.inr rfl)

/-- Claim C9: the service raises the empty-input `ValueError` on empty
bytes, issuing no request at all; on non-empty bytes it runs the extraction
client and then the normalizer, returning their outcomes and errors
unchanged — no error translation of its own. -/
theorem claim_C9_service_compose (pdf_bytes : List Nat) (cfg : Config)
    (post : PostResponse) (start : ℚ) (trace : List (ℚ × PollBody)) :
    (pdf_bytes = [] →
      process_invoice_bytes pdf_bytes cfg post start trace = (.err .emptyInput, 0)) ∧
    (pdf_bytes ≠ [] →
      (∀ e n, extract_invoice cfg post start trace = (.err e, n) →
        process_invoice_bytes pdf_bytes cfg post start trace = (.err e, n)) ∧
      (∀ raw n, extract_invoice cfg post start trace = (.ok raw, n) →
        (∀ r, normalize_invoice raw = .ok r →
          process_invoice_bytes pdf_bytes cfg post start trace = (.ok r, n)) ∧
        (∀ e, normalize_invoice raw = .error e →
          process_invoice_bytes pdf_bytes cfg post start trace = (.err e, n)))) := by
  constructor
  · intro h; exact process_invoice_empty h
  · intro hne
    have hne2 : pdf_bytes.isEmpty = false := by
      cases pdf_bytes with
      | nil => exact absurd rfl hne
      | cons x xs => rfl
    refine ⟨fun e n hx => ?_, fun raw n hx => ⟨fun r hr => ?_, fun e hr => ?_⟩⟩
    · simp [process_invoice_bytes, hne2, hx]
    · simp [process_invoice_bytes, hne2, hx, hr]
    · simp [process_invoice_bytes, hne2, hx, hr]

theorem claim_C9_wit :
    process_invoice_bytes [] cfgGood postAccepted 0 [] = (.err .emptyInput, 0) ∧
    process_invoice_bytes [37] cfgNoKey postAccepted 0 [] = (.err .configError, 0) :=
  ⟨(claim_C9_service_compose [] cfgGood postAccepted 0 []).1 rfl,
   ((claim_C9_service_compose [37] cfgNoKey postAccepted 0 []).2 (by decide)).1
     .configError 0 rfl⟩
